import Mathlib

/-!
Verification of the TalentScout hiring-assistant core (src/main.py).

This file gives a shallow embedding of the program's core: the
`ApplicantInfo` pydantic model and its field validators, the
`get_next_prompt` sequencer, the `generate_technical_questions`
adapter, and the per-input processing block of the Streamlit script
(lines 221-301 of src/main.py), together with theorems about them.

Modelling conventions:
* Python `str` predicates (`isalpha`, `isdigit`, `isspace`, `lower`,
  `strip`) are modelled on their ASCII fragment, matching Python's
  behaviour on all ASCII strings.
* Python `float` is modelled by `PyFloat`: `nan`, the two infinities,
  and finite values as exact rationals (IEEE rounding is irrelevant to
  the properties proved here; comparison semantics, in particular that
  `nan` is unordered, is modelled exactly).
* The Gemini call in `generate_technical_questions` is an external
  service; it is modelled by a parameter `svc : String → Except String
  String` (the service either returns text or fails).  The module-level
  API-key guard (lines 9-13) stops the app when no key is configured,
  so a running session always has `apiKey = true`.
* `st.session_state` becomes an explicit `SessionState`; the ghost
  field `gen_calls` records the arguments of every invocation of the
  generation adapter, for stating "called exactly once" properties.
-/

namespace TalentScout

/-! ## Python character and string primitives (ASCII fragment) -/

/-- ASCII fragment of Python's `str.isalpha` (per character). -/
def pyIsAlpha (c : Char) : Bool := c.isAlpha

/-- ASCII fragment of Python's `str.isspace` (per character):
space, tab, newline, carriage return, vertical tab, form feed. -/
def pyIsSpace (c : Char) : Bool :=
  c = ' ' || c = '\t' || c = '\n' || c = '\r' || c = '\x0b' || c = '\x0c'

/-- ASCII fragment of Python's `str.isdigit` (per character). -/
def pyIsDigit (c : Char) : Bool := c.isDigit

/-- Python's `str.strip()` on a character list: drop whitespace from
both ends. -/
def pyStripList (cs : List Char) : List Char :=
  ((cs.dropWhile pyIsSpace).reverse.dropWhile pyIsSpace).reverse

/-- Python's `str.strip()`. -/
def pyStrip (s : String) : String := String.mk (pyStripList s.data)

/-- ASCII fragment of Python's `str.lower()`. -/
def pyLower (s : String) : String := String.mk (s.data.map Char.toLower)

/-- Python's `str.isdigit()` on a whole string: non-empty and all
digits. -/
def pyIsDigitStr (s : String) : Bool :=
  !s.data.isEmpty && s.data.all pyIsDigit

/-! ## Python float model -/

/-- Model of a Python `float` value: `nan`, the infinities, or a finite
value represented exactly as a rational. -/
inductive PyFloat
  | nan
  | inf
  | ninf
  | fin (q : Rat)
deriving DecidableEq

/-- Python float `<` comparison; `nan` is unordered (every comparison
with it is `False`). -/
def pyLt : PyFloat → PyFloat → Bool
  | .nan, _ => false
  | _, .nan => false
  | .inf, _ => false
  | .ninf, .ninf => false
  | .ninf, _ => true
  | .fin _, .inf => true
  | .fin _, .ninf => false
  | .fin a, .fin b => a < b

/-- Python float `>=` comparison; `nan` is unordered. -/
def pyGe : PyFloat → PyFloat → Bool
  | .nan, _ => false
  | _, .nan => false
  | a, b => !(pyLt a b)

/-- Numeric value of a list of decimal digit characters. -/
def digitsToNat (cs : List Char) : Nat :=
  cs.foldl (fun n c => 10 * n + (c.toNat - 48)) 0

/-- Parse a non-empty all-digit character list. -/
def parseDigits (cs : List Char) : Option Nat :=
  if !cs.isEmpty && cs.all Char.isDigit then some (digitsToNat cs) else none

/-- Parse the exponent part of a Python float literal (after the `e`):
an optional sign followed by digits. -/
def parseExpPart (cs : List Char) : Option Int :=
  match cs with
  | '+' :: r => (parseDigits r).map Int.ofNat
  | '-' :: r => (parseDigits r).map (fun n => -(n : Int))
  | r => (parseDigits r).map Int.ofNat

/-- Parse the mantissa of a Python float literal: digits with an
optional decimal point, at least one digit in total.  The exact value
is returned as a numerator/denominator pair (value = n / d). -/
def parseMantissa (cs : List Char) : Option (Int × Nat) :=
  match cs.span Char.isDigit with
  | (ip, []) => if ip.isEmpty then none else some ((digitsToNat ip : Int), 1)
  | (ip, '.' :: fp) =>
      if fp.all Char.isDigit && (!ip.isEmpty || !fp.isEmpty) then
        some ((digitsToNat ip * 10 ^ fp.length + digitsToNat fp : Int),
          10 ^ fp.length)
      else none
  | _ => none

/-- Parse an unsigned Python float number (mantissa with optional
exponent), already lowercased. -/
def parseNumber (cs : List Char) : Option Rat :=
  match cs.span (fun c => c != 'e') with
  | (mant, []) => (parseMantissa mant).map fun p => mkRat p.1 p.2
  | (mant, _ :: ex) =>
      match parseMantissa mant, parseExpPart ex with
      | some p, some e =>
          some (if 0 ≤ e then mkRat (p.1 * 10 ^ e.toNat) p.2
            else mkRat p.1 (p.2 * 10 ^ (-e).toNat))
      | _, _ => none

/-- Body of `float()` after the sign has been removed (lowercased):
`inf`, `infinity`, `nan`, or a number. -/
def pyFloatBody (neg : Bool) (body : List Char) : Option PyFloat :=
  if body = ['i', 'n', 'f'] || body = ['i', 'n', 'f', 'i', 'n', 'i', 't', 'y'] then
    some (if neg then .ninf else .inf)
  else if body = ['n', 'a', 'n'] then some .nan
  else
    match parseNumber body with
    | some q => some (.fin (if neg then -q else q))
    | none => none

/-- Model of Python's `float(s)` builtin: strip whitespace, optional
sign, then `inf` / `infinity` / `nan` (case-insensitive) or a decimal
literal with optional fraction and exponent.  Returns `none` when
Python raises `ValueError`.  (Underscore digit separators are not
modelled.) -/
def pyFloatOfString (s : String) : Option PyFloat :=
  match (pyStripList s.data).map Char.toLower with
  | '+' :: r => pyFloatBody false r
  | '-' :: r => pyFloatBody true r
  | r => pyFloatBody false r

/-! ## ApplicantInfo and its validators (src/main.py lines 17-50) -/

/-- The pydantic `ApplicantInfo` model: seven optional fields. -/
structure ApplicantInfo where
  name : Option String := none
  email : Option String := none
  phone : Option String := none
  experience : Option PyFloat := none
  position : Option String := none
  location : Option String := none
  tech_stack : Option String := none
deriving DecidableEq

/-- The `validate_name` validator (lines 26-32): every character
alphabetic or whitespace, and non-blank after trimming. -/
def validate_name : Option String → Except String Unit
  | none => .ok ()
  | some v =>
      if !(v.data.all fun x => pyIsAlpha x || pyIsSpace x) || (pyStrip v).isEmpty then
        .error "Name must contain only alphabetic characters and spaces."
      else .ok ()

/-- Split a character list at every occurrence of `sep`. -/
def splitOnChar (sep : Char) : List Char → List (List Char)
  | [] => [[]]
  | c :: rest =>
      if c = sep then [] :: splitOnChar sep rest
      else
        match splitOnChar sep rest with
        | [] => [[c]]
        | h :: t => (c :: h) :: t

/-- Models the syntactic check performed by pydantic's `EmailStr` type
(the email-validator library, external to the repository): one `@`,
non-empty local part, dotted domain not starting or ending with a dot,
no whitespace. -/
def validEmail (s : String) : Bool :=
  match splitOnChar '@' s.data with
  | [lp, dom] =>
      !lp.isEmpty && !dom.isEmpty && dom.contains '.' &&
        s.data.all (fun c => !pyIsSpace c) &&
        !(dom.head? == some '.') && !(dom.getLast? == some '.')
  | _ => false

/-- Type-level validation of the `email : EmailStr | None` field. -/
def validate_email : Option String → Except String Unit
  | none => .ok ()
  | some v =>
      if validEmail v then .ok ()
      else .error "value is not a valid email address"

/-- The `validate_phone` validator (lines 34-38): `isdigit` and
length 10. -/
def validate_phone : Option String → Except String Unit
  | none => .ok ()
  | some v =>
      if !pyIsDigitStr v || v.length != 10 then
        .error "Phone number must be 10 digits (digits only)."
      else .ok ()

/-- The `validate_experience` validator (lines 40-44): rejects
`v < 0`. -/
def validate_experience : Option PyFloat → Except String Unit
  | none => .ok ()
  | some v =>
      if pyLt v (.fin 0) then .error "Experience cannot be negative."
      else .ok ()

/-- The `validate_not_empty` validator (lines 46-50), shared by
`position`, `location` and `tech_stack`. -/
def validate_not_empty : Option String → Except String Unit
  | none => .ok ()
  | some v =>
      if (pyStrip v).isEmpty then .error "This field cannot be empty."
      else .ok ()

/-- Full-model validation, as performed by
`ApplicantInfo.model_validate`: run the field validators in field
definition order and report the first failure's message. -/
def validateApplicant (a : ApplicantInfo) : Except String Unit :=
  match validate_name a.name with
  | .error m => .error m
  | .ok _ =>
  match validate_email a.email with
  | .error m => .error m
  | .ok _ =>
  match validate_phone a.phone with
  | .error m => .error m
  | .ok _ =>
  match validate_experience a.experience with
  | .error m => .error m
  | .ok _ =>
  match validate_not_empty a.position with
  | .error m => .error m
  | .ok _ =>
  match validate_not_empty a.location with
  | .error m => .error m
  | .ok _ => validate_not_empty a.tech_stack

/-! ## Sequencer (src/main.py lines 54-83) -/

/-- The second component of `get_next_prompt`: a field name, or the
`"generate_questions"` sentinel. -/
inductive NextTarget
  | name
  | email
  | phone
  | experience
  | position
  | location
  | tech_stack
  | generate_questions
deriving DecidableEq

def namePrompt : String :=
  "Hello! I\x27m an intelligent hiring assistant from TalentScout. I\x27m here to ask you a few questions to get started with your application. What is your full name?"

def emailPrompt (n : String) : String :=
  "Thanks, " ++ n ++ ". What\x27s your email address?"

def phonePrompt : String := "Got it. What is your phone number?"

def experiencePrompt : String :=
  "Great. How many years of professional experience do you have?"

def positionPrompt : String := "Thanks. What is your desired position or role?"

def locationPrompt : String := "Okay. Where are you currently located?"

def techStackPrompt : String :=
  "Understood. Please list your primary tech stack (e.g., Python, React, Node.js, PostgreSQL)."

/-- The acknowledgment prompt returned when all fields are populated;
line 81 is a plain (non-f) string, so it contains the literal
placeholder, later substituted with `.format` (line 257). -/
def ackTemplate : String :=
  "Thank you. I will now generate a few technical questions based on your tech stack: {tech_stack}. Please wait a moment."

/-- The `get_next_prompt` sequencer (lines 54-83): scan the seven
fields in order, return the prompt of the first absent one. -/
def get_next_prompt (a : ApplicantInfo) : String × NextTarget :=
  match a.name with
  | none => (namePrompt, .name)
  | some n =>
  match a.email with
  | none => (emailPrompt n, .email)
  | some _ =>
  match a.phone with
  | none => (phonePrompt, .phone)
  | some _ =>
  match a.experience with
  | none => (experiencePrompt, .experience)
  | some _ =>
  match a.position with
  | none => (positionPrompt, .position)
  | some _ =>
  match a.location with
  | none => (locationPrompt, .location)
  | some _ =>
  match a.tech_stack with
  | none => (techStackPrompt, .tech_stack)
  | some _ => (ackTemplate, .generate_questions)

/-! ## Generation adapter (src/main.py lines 86-109) -/

def fallbackMsg : String :=
  "I was unable to generate the technical questions at this moment. We can proceed without them. Thank you for your understanding."

/-- The `generate_technical_questions` adapter (lines 86-109),
parameterized by whether an API key is configured and by the external
service `svc` (which returns the generated text or fails with some
reason).  Any service failure is absorbed and converted into
`fallbackMsg`. -/
def generate_technical_questions (apiKey : Bool)
    (svc : String → Except String String) (tech_stack : String) : String :=
  if !apiKey then "Error: API Key is not configured."
  else
    match svc tech_stack with
    | .ok t => t
    | .error _ => fallbackMsg

/-! ## Session state and the input-processing step (lines 201-301) -/

inductive Role
  | user
  | assistant
deriving DecidableEq

/-- The `st.session_state` slice used by the core, plus the ghost
field `gen_calls` recording the argument of every invocation of the
generation adapter (for "called exactly once" statements). -/
structure SessionState where
  messages : List (Role × String)
  applicant_info : ApplicantInfo
  current_field_to_fill : Option NextTarget
  conversation_finished : Bool
  gen_calls : List String
deriving DecidableEq

/-- Initial session state (lines 201-214): empty profile, and the
first prompt already emitted with its target field pending. -/
def initState : SessionState :=
  { messages := [(.assistant, (get_next_prompt {}).1)]
  , applicant_info := {}
  , current_field_to_fill := some (get_next_prompt {}).2
  , conversation_finished := false
  , gen_calls := [] }

/-- An update failure: a `ValueError` raised by `float()` (parse), or
a pydantic `ValidationError` (validation) — caught by distinct
`except` clauses (lines 280-285). -/
inductive UpdateErr
  | parse (msg : String)
  | validation (msg : String)
deriving DecidableEq

/-- Re-validation of a candidate profile by
`ApplicantInfo.model_validate` (lines 246-248). -/
def revalidate (a : ApplicantInfo) : Except UpdateErr ApplicantInfo :=
  match validateApplicant a with
  | .ok _ => .ok a
  | .error m => .error (.validation m)

/-- The field-update of lines 238-248: dump the model, set the pending
field (parsing `float` first for `experience`), and re-validate.  A
pending `"generate_questions"` key would be ignored as an extra key by
`model_validate`, leaving the profile unchanged. -/
def applyField (a : ApplicantInfo) (t : NextTarget) (input : String) :
    Except UpdateErr ApplicantInfo :=
  match t with
  | .name => revalidate { a with name := some input }
  | .email => revalidate { a with email := some input }
  | .phone => revalidate { a with phone := some input }
  | .experience =>
      match pyFloatOfString input with
      | none =>
          .error (.parse ("could not convert string to float: \x27" ++ input ++ "\x27"))
      | some v => revalidate { a with experience := some v }
  | .position => revalidate { a with position := some input }
  | .location => revalidate { a with location := some input }
  | .tech_stack => revalidate { a with tech_stack := some input }
  | .generate_questions => revalidate a

def farewellMsg : String :=
  "Thank you for answering the questions. That\x27s all I need for now. The TalentScout team will review your submission and get back to you soon. Have a great day!"

def apologyMsg : String :=
  "I\x27m sorry, I didn\x27t quite understand that. Let\x27s start over."

/-- The assistant message produced for each update failure
(lines 280-285): the two error kinds get distinct wrappers, each
embedding the raised reason. -/
def errMsgOf : UpdateErr → String
  | .validation m => "Validation Error: " ++ m ++ ". Please try again."
  | .parse m => "Input Error: " ++ m ++ ". Please try again."

/-- The reason carried by an update failure. -/
def errReason : UpdateErr → String
  | .validation m => m
  | .parse m => m

def terminationKeywords : List String := ["bye", "exit", "quit"]

/-- Lines 236-294: the branch taken when the input is not a
termination keyword.  `s` already has the user message appended. -/
def handleField (apiKey : Bool) (svc : String → Except String String)
    (s : SessionState) (input : String) : SessionState :=
  match s.current_field_to_fill with
  | none =>
      { s with messages := s.messages ++ [(.assistant, apologyMsg)]
             , conversation_finished := true }
  | some t =>
      match applyField s.applicant_info t input with
      | .error e =>
          { s with messages := s.messages ++ [(.assistant, errMsgOf e)] }
      | .ok a' =>
          match get_next_prompt a' with
          | (np, nf) =>
            if nf = .generate_questions then
              let ts := a'.tech_stack.getD ""
              let ack := np.replace "{tech_stack}" ts
              let q := generate_technical_questions apiKey svc ts
              { messages := s.messages ++
                  [(.assistant, ack), (.assistant, q), (.assistant, farewellMsg)]
              , applicant_info := a'
              , current_field_to_fill := none
              , conversation_finished := true
              , gen_calls := s.gen_calls ++ [ts] }
            else
              { s with applicant_info := a'
                     , current_field_to_fill := some nf
                     , messages := s.messages ++ [(.assistant, np)] }

/-- One input-processing step (lines 221-301).  When the conversation
is finished no input widget is shown, so the step is the identity;
otherwise the user message is appended, termination keywords are
checked (case-insensitively, without trimming), and the pending field
is updated.  `st.chat_input` only ever delivers a submitted line, so
every call models one arriving input. -/
def processInput (apiKey : Bool) (svc : String → Except String String)
    (s : SessionState) (input : String) : SessionState :=
  if s.conversation_finished then s
  else
    let s1 := { s with messages := s.messages ++ [(.user, input)] }
    if pyLower input ∈ terminationKeywords then
      { s1 with messages := s1.messages ++ [(.assistant, farewellMsg)]
              , conversation_finished := true
              , current_field_to_fill := none }
    else handleField apiKey svc s1 input

/-- A whole session: fold the processing step over the arriving
inputs. -/
def runSession (apiKey : Bool) (svc : String → Except String String)
    (inputs : List String) : SessionState :=
  inputs.foldl (processInput apiKey svc) initState

/-! ## Basic lemmas -/

instance {ε α : Type} [DecidableEq ε] [DecidableEq α] :
    DecidableEq (Except ε α) := fun x y =>
  match x, y with
  | .ok a, .ok b =>
      if h : a = b then isTrue (by rw [h])
      else isFalse fun hc => h (Except.ok.inj hc)
  | .error a, .error b =>
      if h : a = b then isTrue (by rw [h])
      else isFalse fun hc => h (Except.error.inj hc)
  | .ok _, .error _ => isFalse fun hc => Except.noConfusion hc
  | .error _, .ok _ => isFalse fun hc => Except.noConfusion hc

lemma isSome_exists {α : Type} {o : Option α} (h : o.isSome = true) :
    ∃ x, o = some x := by
  cases o with
  | none => simp at h
  | some v => exact ⟨v, rfl⟩

lemma isSome_none {α : Type} {o : Option α} (h : o.isSome = false) :
    o = none := by
  cases o with
  | none => rfl
  | some v => simp at h

lemma revalidate_ok {a a' : ApplicantInfo} (h : revalidate a = .ok a') :
    a' = a ∧ validateApplicant a = .ok () := by
  unfold revalidate at h
  cases hv : validateApplicant a with
  | ok u => cases u; rw [hv] at h; simp at h; exact ⟨h.symm, rfl⟩
  | error m => rw [hv] at h; simp at h

lemma revalidate_err {a : ApplicantInfo} {e : UpdateErr}
    (h : revalidate a = .error e) :
    ∃ m, e = .validation m ∧ validateApplicant a = .error m := by
  unfold revalidate at h
  cases hv : validateApplicant a with
  | ok u => rw [hv] at h; simp at h
  | error m => rw [hv] at h; simp at h; exact ⟨m, h.symm, rfl⟩

lemma validate_name_ok_iff (v : String) :
    validate_name (some v) = .ok () ↔
      ((v.data.all fun x => pyIsAlpha x || pyIsSpace x) = true ∧
        (pyStrip v).isEmpty = false) := by
  unfold validate_name
  rcases h1 : v.data.all fun x => pyIsAlpha x || pyIsSpace x <;>
    rcases h2 : (pyStrip v).isEmpty <;> simp [h1, h2]

lemma validate_email_ok_iff (v : String) :
    validate_email (some v) = .ok () ↔ validEmail v = true := by
  unfold validate_email
  rcases h : validEmail v <;> simp [h]

lemma validate_phone_ok_iff (v : String) :
    validate_phone (some v) = .ok () ↔
      (pyIsDigitStr v = true ∧ v.length = 10) := by
  unfold validate_phone
  rcases h1 : pyIsDigitStr v <;> by_cases h2 : v.length = 10 <;>
    simp [h1, h2]

lemma validate_experience_ok_iff (v : PyFloat) :
    validate_experience (some v) = .ok () ↔ pyLt v (.fin 0) = false := by
  unfold validate_experience
  rcases h : pyLt v (.fin 0) <;> simp [h]

lemma validate_experience_err {v : PyFloat} (h : pyLt v (.fin 0) = true) :
    validate_experience (some v) = .error "Experience cannot be negative." := by
  simp [validate_experience, h]

lemma validate_not_empty_ok_iff (v : String) :
    validate_not_empty (some v) = .ok () ↔ (pyStrip v).isEmpty = false := by
  unfold validate_not_empty
  rcases h : (pyStrip v).isEmpty <;> simp [h]

lemma validateApplicant_ok_iff (a : ApplicantInfo) :
    validateApplicant a = .ok () ↔
      (validate_name a.name = .ok () ∧ validate_email a.email = .ok () ∧
       validate_phone a.phone = .ok () ∧
       validate_experience a.experience = .ok () ∧
       validate_not_empty a.position = .ok () ∧
       validate_not_empty a.location = .ok () ∧
       validate_not_empty a.tech_stack = .ok ()) := by
  cases h1 : validate_name a.name with
  | error m => simp [validateApplicant, h1]
  | ok u =>
  cases u
  cases h2 : validate_email a.email with
  | error m => simp [validateApplicant, h1, h2]
  | ok u =>
  cases u
  cases h3 : validate_phone a.phone with
  | error m => simp [validateApplicant, h1, h2, h3]
  | ok u =>
  cases u
  cases h4 : validate_experience a.experience with
  | error m => simp [validateApplicant, h1, h2, h3, h4]
  | ok u =>
  cases u
  cases h5 : validate_not_empty a.position with
  | error m => simp [validateApplicant, h1, h2, h3, h4, h5]
  | ok u =>
  cases u
  cases h6 : validate_not_empty a.location with
  | error m => simp [validateApplicant, h1, h2, h3, h4, h5, h6]
  | ok u =>
  cases u
  simp [validateApplicant, h1, h2, h3, h4, h5, h6]

lemma validateApplicant_exp_err {a : ApplicantInfo} {m : String}
    (h1 : validate_name a.name = .ok ())
    (h2 : validate_email a.email = .ok ())
    (h3 : validate_phone a.phone = .ok ())
    (h4 : validate_experience a.experience = .error m) :
    validateApplicant a = .error m := by
  simp [validateApplicant, h1, h2, h3, h4]

/-! ## Sequencer lemmas -/

/-- The i-th field of the collecting order (0-based), `tech_stack`
being the last. -/
def targetAt : Nat → NextTarget
  | 0 => .name
  | 1 => .email
  | 2 => .phone
  | 3 => .experience
  | 4 => .position
  | 5 => .location
  | 6 => .tech_stack
  | _ => .generate_questions

/-- The prompt of the i-th field (the email prompt interpolates the
collected name). -/
def promptAt (k : Nat) (a : ApplicantInfo) : String :=
  match k with
  | 0 => namePrompt
  | 1 => emailPrompt (a.name.getD "")
  | 2 => phonePrompt
  | 3 => experiencePrompt
  | 4 => positionPrompt
  | 5 => locationPrompt
  | _ => techStackPrompt

/-- Exactly the first `k` fields (in collecting order) are populated,
the rest are absent. -/
def exactlyFirst (k : Nat) (a : ApplicantInfo) : Prop :=
  a.name.isSome = decide (0 < k) ∧ a.email.isSome = decide (1 < k) ∧
  a.phone.isSome = decide (2 < k) ∧ a.experience.isSome = decide (3 < k) ∧
  a.position.isSome = decide (4 < k) ∧ a.location.isSome = decide (5 < k) ∧
  a.tech_stack.isSome = decide (6 < k)

/-- All seven fields are populated. -/
def allSeven (a : ApplicantInfo) : Bool :=
  a.name.isSome && a.email.isSome && a.phone.isSome &&
    a.experience.isSome && a.position.isSome && a.location.isSome &&
    a.tech_stack.isSome

lemma gnp_name {a : ApplicantInfo} (h : a.name = none) :
    get_next_prompt a = (namePrompt, .name) := by
  simp [get_next_prompt, h]

lemma gnp_email {a : ApplicantInfo} {n : String} (h0 : a.name = some n)
    (h : a.email = none) : get_next_prompt a = (emailPrompt n, .email) := by
  simp [get_next_prompt, h0, h]

lemma gnp_phone {a : ApplicantInfo} {n e : String} (h0 : a.name = some n)
    (h1 : a.email = some e) (h : a.phone = none) :
    get_next_prompt a = (phonePrompt, .phone) := by
  simp [get_next_prompt, h0, h1, h]

lemma gnp_experience {a : ApplicantInfo} {n e p : String}
    (h0 : a.name = some n) (h1 : a.email = some e) (h2 : a.phone = some p)
    (h : a.experience = none) :
    get_next_prompt a = (experiencePrompt, .experience) := by
  simp [get_next_prompt, h0, h1, h2, h]

lemma gnp_position {a : ApplicantInfo} {n e p : String} {ex : PyFloat}
    (h0 : a.name = some n) (h1 : a.email = some e) (h2 : a.phone = some p)
    (h3 : a.experience = some ex) (h : a.position = none) :
    get_next_prompt a = (positionPrompt, .position) := by
  simp [get_next_prompt, h0, h1, h2, h3, h]

lemma gnp_location {a : ApplicantInfo} {n e p po : String} {ex : PyFloat}
    (h0 : a.name = some n) (h1 : a.email = some e) (h2 : a.phone = some p)
    (h3 : a.experience = some ex) (h4 : a.position = some po)
    (h : a.location = none) :
    get_next_prompt a = (locationPrompt, .location) := by
  simp [get_next_prompt, h0, h1, h2, h3, h4, h]

lemma gnp_tech {a : ApplicantInfo} {n e p po lo : String} {ex : PyFloat}
    (h0 : a.name = some n) (h1 : a.email = some e) (h2 : a.phone = some p)
    (h3 : a.experience = some ex) (h4 : a.position = some po)
    (h5 : a.location = some lo) (h : a.tech_stack = none) :
    get_next_prompt a = (techStackPrompt, .tech_stack) := by
  simp [get_next_prompt, h0, h1, h2, h3, h4, h5, h]

lemma gnp_generate {a : ApplicantInfo} {n e p po lo ts : String}
    {ex : PyFloat}
    (h0 : a.name = some n) (h1 : a.email = some e) (h2 : a.phone = some p)
    (h3 : a.experience = some ex) (h4 : a.position = some po)
    (h5 : a.location = some lo) (h6 : a.tech_stack = some ts) :
    get_next_prompt a = (ackTemplate, .generate_questions) := by
  simp [get_next_prompt, h0, h1, h2, h3, h4, h5, h6]

lemma get_next_prompt_exact {k : Nat} (hk : k ≤ 6) {a : ApplicantInfo}
    (h : exactlyFirst k a) :
    get_next_prompt a = (promptAt k a, targetAt k) := by
  obtain ⟨h1, h2, h3, h4, h5, h6, h7⟩ := h
  interval_cases k
  · exact gnp_name (isSome_none (by simpa using h1))
  · obtain ⟨n, hn⟩ := isSome_exists (by simpa using h1)
    rw [gnp_email hn (isSome_none (by simpa using h2))]
    simp [promptAt, targetAt, hn]
  · obtain ⟨n, hn⟩ := isSome_exists (by simpa using h1)
    obtain ⟨e, he⟩ := isSome_exists (by simpa using h2)
    exact gnp_phone hn he (isSome_none (by simpa using h3))
  · obtain ⟨n, hn⟩ := isSome_exists (by simpa using h1)
    obtain ⟨e, he⟩ := isSome_exists (by simpa using h2)
    obtain ⟨p, hp⟩ := isSome_exists (by simpa using h3)
    exact gnp_experience hn he hp (isSome_none (by simpa using h4))
  · obtain ⟨n, hn⟩ := isSome_exists (by simpa using h1)
    obtain ⟨e, he⟩ := isSome_exists (by simpa using h2)
    obtain ⟨p, hp⟩ := isSome_exists (by simpa using h3)
    obtain ⟨ex, hex⟩ := isSome_exists (by simpa using h4)
    exact gnp_position hn he hp hex (isSome_none (by simpa using h5))
  · obtain ⟨n, hn⟩ := isSome_exists (by simpa using h1)
    obtain ⟨e, he⟩ := isSome_exists (by simpa using h2)
    obtain ⟨p, hp⟩ := isSome_exists (by simpa using h3)
    obtain ⟨ex, hex⟩ := isSome_exists (by simpa using h4)
    obtain ⟨po, hpo⟩ := isSome_exists (by simpa using h5)
    exact gnp_location hn he hp hex hpo (isSome_none (by simpa using h6))
  · obtain ⟨n, hn⟩ := isSome_exists (by simpa using h1)
    obtain ⟨e, he⟩ := isSome_exists (by simpa using h2)
    obtain ⟨p, hp⟩ := isSome_exists (by simpa using h3)
    obtain ⟨ex, hex⟩ := isSome_exists (by simpa using h4)
    obtain ⟨po, hpo⟩ := isSome_exists (by simpa using h5)
    obtain ⟨lo, hlo⟩ := isSome_exists (by simpa using h6)
    exact gnp_tech hn he hp hex hpo hlo (isSome_none (by simpa using h7))

lemma get_next_prompt_full {a : ApplicantInfo} (h : exactlyFirst 7 a) :
    get_next_prompt a = (ackTemplate, .generate_questions) := by
  obtain ⟨h1, h2, h3, h4, h5, h6, h7⟩ := h
  obtain ⟨n, hn⟩ := isSome_exists (by simpa using h1)
  obtain ⟨e, he⟩ := isSome_exists (by simpa using h2)
  obtain ⟨p, hp⟩ := isSome_exists (by simpa using h3)
  obtain ⟨ex, hex⟩ := isSome_exists (by simpa using h4)
  obtain ⟨po, hpo⟩ := isSome_exists (by simpa using h5)
  obtain ⟨lo, hlo⟩ := isSome_exists (by simpa using h6)
  obtain ⟨ts, hts⟩ := isSome_exists (by simpa using h7)
  exact gnp_generate hn he hp hex hpo hlo hts

lemma allSeven_of_exact7 {a : ApplicantInfo} (h : exactlyFirst 7 a) :
    allSeven a = true := by
  obtain ⟨h1, h2, h3, h4, h5, h6, h7⟩ := h
  simp [allSeven, by simpa using h1, by simpa using h2, by simpa using h3,
    by simpa using h4, by simpa using h5, by simpa using h6,
    by simpa using h7]

/-! ## Equation lemmas for the processing step -/

lemma errMsg_embeds (e : UpdateErr) :
    ∃ pre post, errMsgOf e = pre ++ errReason e ++ post := by
  cases e with
  | parse m => exact ⟨"Input Error: ", ". Please try again.", rfl⟩
  | validation m => exact ⟨"Validation Error: ", ". Please try again.", rfl⟩

lemma processInput_finished {apiKey : Bool}
    {svc : String → Except String String} {s : SessionState} {x : String}
    (h : s.conversation_finished = true) :
    processInput apiKey svc s x = s := by
  simp [processInput, h]

lemma processInput_quit {apiKey : Bool}
    {svc : String → Except String String} {s : SessionState} {x : String}
    (h : s.conversation_finished = false)
    (hq : pyLower x ∈ terminationKeywords) :
    processInput apiKey svc s x =
      { s with messages := s.messages ++ [(.user, x), (.assistant, farewellMsg)]
             , conversation_finished := true
             , current_field_to_fill := none } := by
  simp [processInput, h, hq]

lemma processInput_field {apiKey : Bool}
    {svc : String → Except String String} {s : SessionState} {x : String}
    (h : s.conversation_finished = false)
    (hq : pyLower x ∉ terminationKeywords) :
    processInput apiKey svc s x =
      handleField apiKey svc
        { s with messages := s.messages ++ [(.user, x)] } x := by
  simp [processInput, h, hq]

lemma handleField_none {apiKey : Bool}
    {svc : String → Except String String} {s : SessionState} {x : String}
    (ht : s.current_field_to_fill = none) :
    handleField apiKey svc s x =
      { s with messages := s.messages ++ [(.assistant, apologyMsg)]
             , conversation_finished := true } := by
  simp [handleField, ht]

lemma handleField_err {apiKey : Bool}
    {svc : String → Except String String} {s : SessionState} {x : String}
    {t : NextTarget} {e : UpdateErr}
    (ht : s.current_field_to_fill = some t)
    (ha : applyField s.applicant_info t x = .error e) :
    handleField apiKey svc s x =
      { s with messages := s.messages ++ [(.assistant, errMsgOf e)] } := by
  simp [handleField, ht, ha]

lemma handleField_ok_next {apiKey : Bool}
    {svc : String → Except String String} {s : SessionState} {x np : String}
    {t nf : NextTarget} {a' : ApplicantInfo}
    (ht : s.current_field_to_fill = some t)
    (ha : applyField s.applicant_info t x = .ok a')
    (hg : get_next_prompt a' = (np, nf))
    (hnf : nf ≠ .generate_questions) :
    handleField apiKey svc s x =
      { s with applicant_info := a'
             , current_field_to_fill := some nf
             , messages := s.messages ++ [(.assistant, np)] } := by
  simp [handleField, ht, ha, hg, hnf]

lemma handleField_ok_gen {apiKey : Bool}
    {svc : String → Except String String} {s : SessionState} {x np : String}
    {t : NextTarget} {a' : ApplicantInfo}
    (ht : s.current_field_to_fill = some t)
    (ha : applyField s.applicant_info t x = .ok a')
    (hg : get_next_prompt a' = (np, .generate_questions)) :
    handleField apiKey svc s x =
      { messages := s.messages ++
          [(.assistant, np.replace "{tech_stack}" (a'.tech_stack.getD ""))
          , (.assistant,
              generate_technical_questions apiKey svc (a'.tech_stack.getD ""))
          , (.assistant, farewellMsg)]
      , applicant_info := a'
      , current_field_to_fill := none
      , conversation_finished := true
      , gen_calls := s.gen_calls ++ [a'.tech_stack.getD ""] } := by
  simp [handleField, ht, ha, hg]

/-! ## Reachability invariant -/

lemma exact_set_name {a : ApplicantInfo} {x : String}
    (h : exactlyFirst 0 a) : exactlyFirst 1 { a with name := some x } := by
  obtain ⟨h1, h2, h3, h4, h5, h6, h7⟩ := h
  exact ⟨by simp, by simpa using h2, by simpa using h3, by simpa using h4,
    by simpa using h5, by simpa using h6, by simpa using h7⟩

lemma exact_set_email {a : ApplicantInfo} {x : String}
    (h : exactlyFirst 1 a) : exactlyFirst 2 { a with email := some x } := by
  obtain ⟨h1, h2, h3, h4, h5, h6, h7⟩ := h
  exact ⟨by simpa using h1, by simp, by simpa using h3, by simpa using h4,
    by simpa using h5, by simpa using h6, by simpa using h7⟩

lemma exact_set_phone {a : ApplicantInfo} {x : String}
    (h : exactlyFirst 2 a) : exactlyFirst 3 { a with phone := some x } := by
  obtain ⟨h1, h2, h3, h4, h5, h6, h7⟩ := h
  exact ⟨by simpa using h1, by simpa using h2, by simp, by simpa using h4,
    by simpa using h5, by simpa using h6, by simpa using h7⟩

lemma exact_set_experience {a : ApplicantInfo} {v : PyFloat}
    (h : exactlyFirst 3 a) :
    exactlyFirst 4 { a with experience := some v } := by
  obtain ⟨h1, h2, h3, h4, h5, h6, h7⟩ := h
  exact ⟨by simpa using h1, by simpa using h2, by simpa using h3, by simp,
    by simpa using h5, by simpa using h6, by simpa using h7⟩

lemma exact_set_position {a : ApplicantInfo} {x : String}
    (h : exactlyFirst 4 a) : exactlyFirst 5 { a with position := some x } := by
  obtain ⟨h1, h2, h3, h4, h5, h6, h7⟩ := h
  exact ⟨by simpa using h1, by simpa using h2, by simpa using h3,
    by simpa using h4, by simp, by simpa using h6, by simpa using h7⟩

lemma exact_set_location {a : ApplicantInfo} {x : String}
    (h : exactlyFirst 5 a) : exactlyFirst 6 { a with location := some x } := by
  obtain ⟨h1, h2, h3, h4, h5, h6, h7⟩ := h
  exact ⟨by simpa using h1, by simpa using h2, by simpa using h3,
    by simpa using h4, by simpa using h5, by simp, by simpa using h7⟩

lemma exact_set_tech {a : ApplicantInfo} {x : String}
    (h : exactlyFirst 6 a) :
    exactlyFirst 7 { a with tech_stack := some x } := by
  obtain ⟨h1, h2, h3, h4, h5, h6, h7⟩ := h
  exact ⟨by simpa using h1, by simpa using h2, by simpa using h3,
    by simpa using h4, by simpa using h5, by simpa using h6, by simp⟩

/-- The state invariant of a running session: the profile passes full
validation; while collecting, no generation call has happened yet and
the populated fields form a prefix of the collecting order with the
first missing field pending; and the generation adapter has been
called at most once — exactly when the profile became complete and the
session finished. -/
def GoodState (s : SessionState) : Prop :=
  validateApplicant s.applicant_info = .ok () ∧
  (s.conversation_finished = false →
    s.gen_calls = [] ∧
    ∃ k, k ≤ 6 ∧ exactlyFirst k s.applicant_info ∧
      s.current_field_to_fill = some (targetAt k)) ∧
  (s.gen_calls = [] ∨
    ∃ ts, s.gen_calls = [ts] ∧ s.applicant_info.tech_stack = some ts ∧
      allSeven s.applicant_info = true ∧ s.conversation_finished = true)

lemma initState_good : GoodState initState := by
  refine ⟨rfl, ?_, Or.inl rfl⟩
  intro _
  exact ⟨rfl, 0, by omega, ⟨rfl, rfl, rfl, rfl, rfl, rfl, rfl⟩, rfl⟩

lemma processInput_good (apiKey : Bool)
    (svc : String → Except String String) (s : SessionState) (x : String)
    (hs : GoodState s) : GoodState (processInput apiKey svc s x) := by
  obtain ⟨hval, hcol, hgen⟩ := hs
  cases hf : s.conversation_finished with
  | true => rw [processInput_finished hf]; exact ⟨hval, hcol, hgen⟩
  | false =>
  obtain ⟨hcalls, k, hk, hex, hpend⟩ := hcol hf
  by_cases hq : pyLower x ∈ terminationKeywords
  · rw [processInput_quit hf hq]
    refine ⟨hval, ?_, Or.inl hcalls⟩
    intro hcontra
    simp at hcontra
  · rw [processInput_field hf hq]
    have hpend1 : ({ s with messages := s.messages ++ [(.user, x)] }
        : SessionState).current_field_to_fill = some (targetAt k) := hpend
    cases ha : applyField s.applicant_info (targetAt k) x with
    | error e =>
        rw [handleField_err hpend1 ha]
        refine ⟨hval, ?_, Or.inl hcalls⟩
        intro _
        exact ⟨hcalls, k, hk, hex, hpend⟩
    | ok a' =>
        interval_cases k
        · obtain ⟨ha2, hval'⟩ :=
            revalidate_ok (a := { s.applicant_info with name := some x }) ha
          subst ha2
          have hex' := exact_set_name (x := x) hex
          have hg := get_next_prompt_exact (k := 1) (by omega) hex'
          rw [handleField_ok_next hpend1 ha hg (by decide)]
          refine ⟨hval', ?_, Or.inl hcalls⟩
          intro _
          exact ⟨hcalls, 1, by omega, hex', rfl⟩
        · obtain ⟨ha2, hval'⟩ :=
            revalidate_ok (a := { s.applicant_info with email := some x }) ha
          subst ha2
          have hex' := exact_set_email (x := x) hex
          have hg := get_next_prompt_exact (k := 2) (by omega) hex'
          rw [handleField_ok_next hpend1 ha hg (by decide)]
          refine ⟨hval', ?_, Or.inl hcalls⟩
          intro _
          exact ⟨hcalls, 2, by omega, hex', rfl⟩
        · obtain ⟨ha2, hval'⟩ :=
            revalidate_ok (a := { s.applicant_info with phone := some x }) ha
          subst ha2
          have hex' := exact_set_phone (x := x) hex
          have hg := get_next_prompt_exact (k := 3) (by omega) hex'
          rw [handleField_ok_next hpend1 ha hg (by decide)]
          refine ⟨hval', ?_, Or.inl hcalls⟩
          intro _
          exact ⟨hcalls, 3, by omega, hex', rfl⟩
        · -- experience: parse first
          have ha0 : applyField s.applicant_info .experience x = .ok a' := ha
          rw [applyField] at ha0
          cases hp : pyFloatOfString x with
          | none => rw [hp] at ha0; simp at ha0
          | some v =>
              rw [hp] at ha0
              obtain ⟨ha2, hval'⟩ := revalidate_ok
                (a := { s.applicant_info with experience := some v }) ha0
              subst ha2
              have hex' := exact_set_experience (v := v) hex
              have hg := get_next_prompt_exact (k := 4) (by omega) hex'
              rw [handleField_ok_next hpend1 ha hg (by decide)]
              refine ⟨hval', ?_, Or.inl hcalls⟩
              intro _
              exact ⟨hcalls, 4, by omega, hex', rfl⟩
        · obtain ⟨ha2, hval'⟩ :=
            revalidate_ok (a := { s.applicant_info with position := some x }) ha
          subst ha2
          have hex' := exact_set_position (x := x) hex
          have hg := get_next_prompt_exact (k := 5) (by omega) hex'
          rw [handleField_ok_next hpend1 ha hg (by decide)]
          refine ⟨hval', ?_, Or.inl hcalls⟩
          intro _
          exact ⟨hcalls, 5, by omega, hex', rfl⟩
        · obtain ⟨ha2, hval'⟩ :=
            revalidate_ok (a := { s.applicant_info with location := some x }) ha
          subst ha2
          have hex' := exact_set_location (x := x) hex
          have hg := get_next_prompt_exact (k := 6) (by omega) hex'
          rw [handleField_ok_next hpend1 ha hg (by decide)]
          refine ⟨hval', ?_, Or.inl hcalls⟩
          intro _
          exact ⟨hcalls, 6, by omega, hex', rfl⟩
        · obtain ⟨ha2, hval'⟩ :=
            revalidate_ok (a := { s.applicant_info with tech_stack := some x })
              ha
          subst ha2
          have hex' := exact_set_tech (x := x) hex
          have hg := get_next_prompt_full hex'
          rw [handleField_ok_gen hpend1 ha hg]
          refine ⟨hval', ?_,
            Or.inr ⟨x, by simp [hcalls], rfl, allSeven_of_exact7 hex', rfl⟩⟩
          intro hcontra
          simp at hcontra

lemma foldl_good (apiKey : Bool) (svc : String → Except String String) :
    ∀ (inputs : List String) (s : SessionState), GoodState s →
      GoodState (inputs.foldl (processInput apiKey svc) s)
  | [], _, h => h
  | x :: rest, s, h =>
      foldl_good apiKey svc rest (processInput apiKey svc s x)
        (processInput_good apiKey svc s x h)

lemma runSession_good (apiKey : Bool) (svc : String → Except String String)
    (inputs : List String) : GoodState (runSession apiKey svc inputs) :=
  foldl_good apiKey svc inputs initState initState_good

/-! ## Further support lemmas -/

lemma revalidate_of_ok {a : ApplicantInfo} (h : validateApplicant a = .ok ()) :
    revalidate a = .ok a := by
  simp [revalidate, h]

lemma revalidate_of_err {a : ApplicantInfo} {m : String}
    (h : validateApplicant a = .error m) :
    revalidate a = .error (.validation m) := by
  simp [revalidate, h]

lemma dropWhile_no_space {cs : List Char}
    (h : ∀ c ∈ cs, pyIsSpace c = false) : cs.dropWhile pyIsSpace = cs := by
  cases cs with
  | nil => rfl
  | cons a l => simp [List.dropWhile_cons, h a (by simp)]

lemma no_space_strip {x : String} (h : ∀ c ∈ x.data, pyIsSpace c = false) :
    pyStrip x = x := by
  unfold pyStrip pyStripList
  rw [dropWhile_no_space h,
    dropWhile_no_space fun c hc => h c (List.mem_reverse.mp hc),
    List.reverse_reverse]

lemma space_toLower {c : Char} (h : pyIsSpace c = true) : c.toLower = c := by
  simp only [pyIsSpace, Bool.or_eq_true, decide_eq_true_eq] at h
  rcases h with ((((rfl | rfl) | rfl) | rfl) | rfl) | rfl <;> decide

lemma lower_keyword_no_space {x : String}
    (h : pyLower x ∈ terminationKeywords) :
    ∀ c ∈ x.data, pyIsSpace c = false := by
  intro c hc
  by_contra hcon
  rw [Bool.not_eq_false] at hcon
  have hmem : c.toLower ∈ (pyLower x).data := List.mem_map_of_mem _ hc
  rw [space_toLower hcon] at hmem
  have h3 : pyLower x = "bye" ∨ pyLower x = "exit" ∨ pyLower x = "quit" := by
    simpa [terminationKeywords] using h
  have hx : c ∈ (['b', 'y', 'e'] : List Char) ∨
      c ∈ (['e', 'x', 'i', 't'] : List Char) ∨
      c ∈ (['q', 'u', 'i', 't'] : List Char) := by
    rcases h3 with h' | h' | h'
    · rw [h'] at hmem; exact Or.inl hmem
    · rw [h'] at hmem; exact Or.inr (Or.inl hmem)
    · rw [h'] at hmem; exact Or.inr (Or.inr hmem)
  rcases hx with hx | hx | hx <;> fin_cases hx <;>
    exact absurd hcon (by decide)

/-- A whitespace-padded keyword is not matched by the termination
check: the check lowercases but does not trim. -/
lemma padded_keyword_not_matched (x : String) (hne : x ≠ pyStrip x)
    (_hs : pyLower (pyStrip x) ∈ terminationKeywords) :
    pyLower x ∉ terminationKeywords := by
  intro hmem
  exact hne (no_space_strip (lower_keyword_no_space hmem)).symm

/-- The processing step successfully sets the seventh field
(`tech_stack`): the session is still collecting, `tech_stack` is the
pending field, the input is not a termination keyword, and the
validated update succeeds. -/
def setsTechAt (s : SessionState) (x : String) : Prop :=
  s.conversation_finished = false ∧
  s.current_field_to_fill = some .tech_stack ∧
  pyLower x ∉ terminationKeywords ∧
  ∃ a', applyField s.applicant_info .tech_stack x = .ok a'

lemma targetAt_tech {k : Nat} (hk : k ≤ 6)
    (h : targetAt k = .tech_stack) : k = 6 := by
  interval_cases k <;> first | rfl | exact absurd h (by decide)

lemma step_calls_unchanged (apiKey : Bool)
    (svc : String → Except String String) (s : SessionState) (x : String)
    (hs : GoodState s) (hnot : ¬setsTechAt s x) :
    (processInput apiKey svc s x).gen_calls = s.gen_calls := by
  obtain ⟨hval, hcol, hgen⟩ := hs
  cases hf : s.conversation_finished with
  | true => rw [processInput_finished hf]
  | false =>
  obtain ⟨hcalls, k, hk, hex, hpend⟩ := hcol hf
  by_cases hq : pyLower x ∈ terminationKeywords
  · rw [processInput_quit hf hq]
  · rw [processInput_field hf hq]
    have hpend1 : ({ s with messages := s.messages ++ [(.user, x)] }
        : SessionState).current_field_to_fill = some (targetAt k) := hpend
    cases ha : applyField s.applicant_info (targetAt k) x with
    | error e => rw [handleField_err hpend1 ha]
    | ok a' =>
        interval_cases k
        · obtain ⟨ha2, hval'⟩ :=
            revalidate_ok (a := { s.applicant_info with name := some x }) ha
          subst ha2
          rw [handleField_ok_next hpend1 ha
            (get_next_prompt_exact (k := 1) (by omega) (exact_set_name hex))
            (by decide)]
        · obtain ⟨ha2, hval'⟩ :=
            revalidate_ok (a := { s.applicant_info with email := some x }) ha
          subst ha2
          rw [handleField_ok_next hpend1 ha
            (get_next_prompt_exact (k := 2) (by omega) (exact_set_email hex))
            (by decide)]
        · obtain ⟨ha2, hval'⟩ :=
            revalidate_ok (a := { s.applicant_info with phone := some x }) ha
          subst ha2
          rw [handleField_ok_next hpend1 ha
            (get_next_prompt_exact (k := 3) (by omega) (exact_set_phone hex))
            (by decide)]
        · have ha0 : applyField s.applicant_info .experience x = .ok a' := ha
          rw [applyField] at ha0
          cases hp : pyFloatOfString x with
          | none => rw [hp] at ha0; simp at ha0
          | some v =>
              rw [hp] at ha0
              obtain ⟨ha2, hval'⟩ := revalidate_ok
                (a := { s.applicant_info with experience := some v }) ha0
              subst ha2
              rw [handleField_ok_next hpend1 ha
                (get_next_prompt_exact (k := 4) (by omega)
                  (exact_set_experience hex)) (by decide)]
        · obtain ⟨ha2, hval'⟩ :=
            revalidate_ok (a := { s.applicant_info with position := some x }) ha
          subst ha2
          rw [handleField_ok_next hpend1 ha
            (get_next_prompt_exact (k := 5) (by omega) (exact_set_position hex))
            (by decide)]
        · obtain ⟨ha2, hval'⟩ :=
            revalidate_ok (a := { s.applicant_info with location := some x }) ha
          subst ha2
          rw [handleField_ok_next hpend1 ha
            (get_next_prompt_exact (k := 6) (by omega) (exact_set_location hex))
            (by decide)]
        · exact absurd ⟨hf, hpend, hq, a', ha⟩ hnot

lemma step_calls_gen (apiKey : Bool) (svc : String → Except String String)
    (s : SessionState) (x : String) (hs : GoodState s)
    (hst : setsTechAt s x) :
    (processInput apiKey svc s x).gen_calls = [x] ∧
    (processInput apiKey svc s x).applicant_info.tech_stack = some x ∧
    (processInput apiKey svc s x).conversation_finished = true ∧
    allSeven (processInput apiKey svc s x).applicant_info = true := by
  obtain ⟨hval, hcol, hgen⟩ := hs
  obtain ⟨hf, hpendT, hq, a', ha⟩ := hst
  obtain ⟨hcalls, k, hk, hex, hpend⟩ := hcol hf
  have hkk : k = 6 := by
    rw [hpend] at hpendT
    exact targetAt_tech hk (Option.some_injective _ hpendT)
  subst hkk
  obtain ⟨ha2, hval'⟩ :=
    revalidate_ok (a := { s.applicant_info with tech_stack := some x }) ha
  subst ha2
  have hex' := exact_set_tech (x := x) hex
  have hpend1 : ({ s with messages := s.messages ++ [(.user, x)] }
      : SessionState).current_field_to_fill = some (targetAt 6) := hpend
  rw [processInput_field hf hq,
    handleField_ok_gen hpend1 ha (get_next_prompt_full hex')]
  exact ⟨by simp [hcalls], rfl, rfl, allSeven_of_exact7 hex'⟩

/-- The observable facts of one successful non-final collecting step,
stated so that scenario runs can be chained without computing whole
session states. -/
lemma step_facts (apiKey : Bool) (svc : String → Except String String)
    {s : SessionState} {x np : String} {t nf : NextTarget}
    {a' : ApplicantInfo}
    (hf : s.conversation_finished = false)
    (hpend : s.current_field_to_fill = some t)
    (hq : pyLower x ∉ terminationKeywords)
    (ha : applyField s.applicant_info t x = .ok a')
    (hg : get_next_prompt a' = (np, nf))
    (hnf : nf ≠ .generate_questions) :
    (processInput apiKey svc s x).conversation_finished = false ∧
    (processInput apiKey svc s x).current_field_to_fill = some nf ∧
    (processInput apiKey svc s x).applicant_info = a' := by
  have hpend1 : ({ s with messages := s.messages ++ [(.user, x)] }
      : SessionState).current_field_to_fill = some t := hpend
  rw [processInput_field hf hq, handleField_ok_next hpend1 ha hg hnf]
  exact ⟨hf, rfl, rfl⟩

/-! ## Concrete artifacts used by witnesses and counterexamples -/

/-- A generation service that always succeeds. -/
def svcOk : String → Except String String := fun _ => .ok "QUESTIONS"

/-- A generation service that always fails. -/
def svcFail : String → Except String String :=
  fun _ => .error "service unavailable"

/-- The first six inputs of end-to-end scenario A. -/
def scenarioA6 : List String :=
  ["Jane Doe", "jane@x.com", "9876543210", "2", "Backend Engineer", "Berlin"]

/-- The full input sequence of end-to-end scenario A. -/
def scenarioA : List String := scenarioA6 ++ ["Python, PostgreSQL"]

/-- The fully collected profile of scenario A. -/
def profileA : ApplicantInfo :=
  { name := some "Jane Doe", email := some "jane@x.com"
  , phone := some "9876543210", experience := some (.fin 2)
  , position := some "Backend Engineer", location := some "Berlin"
  , tech_stack := some "Python, PostgreSQL" }

/-- The scenario-A profile after the first k inputs (k = 1..6). -/
def profileA1 : ApplicantInfo := { name := some "Jane Doe" }

def profileA2 : ApplicantInfo := { profileA1 with email := some "jane@x.com" }

def profileA3 : ApplicantInfo := { profileA2 with phone := some "9876543210" }

def profileA4 : ApplicantInfo := { profileA3 with experience := some (.fin 2) }

def profileA5 : ApplicantInfo :=
  { profileA4 with position := some "Backend Engineer" }

def profileA6 : ApplicantInfo := { profileA5 with location := some "Berlin" }

/-! ## Per-field constraints, as the spec states them (for C2) -/

/-- Each populated field of the profile passes its validator's check:
name all-alphabetic-or-space and non-blank after trimming, email
syntactically valid, phone exactly 10 characters all digits,
experience not less than zero under float ordering, and position,
location, tech_stack non-blank after trimming. -/
def fieldChecksOk (a : ApplicantInfo) : Prop :=
  (∀ v, a.name = some v →
    (v.data.all fun x => pyIsAlpha x || pyIsSpace x) = true ∧
      (pyStrip v).isEmpty = false) ∧
  (∀ v, a.email = some v → validEmail v = true) ∧
  (∀ v, a.phone = some v → v.length = 10 ∧ v.data.all pyIsDigit = true) ∧
  (∀ v, a.experience = some v → pyLt v (.fin 0) = false) ∧
  (∀ v, a.position = some v → (pyStrip v).isEmpty = false) ∧
  (∀ v, a.location = some v → (pyStrip v).isEmpty = false) ∧
  (∀ v, a.tech_stack = some v → (pyStrip v).isEmpty = false)

lemma validate_ok_checks {a : ApplicantInfo}
    (h : validateApplicant a = .ok ()) : fieldChecksOk a := by
  obtain ⟨c1, c2, c3, c4, c5, c6, c7⟩ := (validateApplicant_ok_iff a).mp h
  refine ⟨?_, ?_, ?_, ?_, ?_, ?_, ?_⟩ <;> intro v hv
  · rw [hv] at c1; exact (validate_name_ok_iff v).mp c1
  · rw [hv] at c2; exact (validate_email_ok_iff v).mp c2
  · rw [hv] at c3
    obtain ⟨hd, hl⟩ := (validate_phone_ok_iff v).mp c3
    simp only [pyIsDigitStr, Bool.and_eq_true] at hd
    exact ⟨hl, hd.2⟩
  · rw [hv] at c4; exact (validate_experience_ok_iff v).mp c4
  · rw [hv] at c5; exact (validate_not_empty_ok_iff v).mp c5
  · rw [hv] at c6; exact (validate_not_empty_ok_iff v).mp c6
  · rw [hv] at c7; exact (validate_not_empty_ok_iff v).mp c7

/-! ## Claims -/

/-- C1: for every profile in which exactly the first k fields (in the
fixed order name, email, phone, experience, position, location,
tech_stack) are populated and the rest are absent, for k = 0..6, the
sequencer `get_next_prompt` returns the (k+1)-th field as the next
target together with that field's prompt; when all seven fields are
populated it returns the `generate_questions` sentinel with the
acknowledgment prompt. -/
theorem claim_C1 :
    (∀ (a : ApplicantInfo) (k : Nat), k ≤ 6 → exactlyFirst k a →
      get_next_prompt a = (promptAt k a, targetAt k)) ∧
    (∀ a : ApplicantInfo, exactlyFirst 7 a →
      get_next_prompt a = (ackTemplate, .generate_questions)) :=
  ⟨fun _ _ hk h => get_next_prompt_exact hk h,
   fun _ h => get_next_prompt_full h⟩

/-- Witness for C1: the empty profile is prompted for the name, and
the fully populated scenario-A profile triggers generation. -/
theorem claim_C1_witness :
    get_next_prompt {} = (namePrompt, NextTarget.name) ∧
    get_next_prompt profileA = (ackTemplate, NextTarget.generate_questions) :=
  ⟨claim_C1.1 {} 0 (by omega) ⟨rfl, rfl, rfl, rfl, rfl, rfl, rfl⟩,
   claim_C1.2 profileA ⟨rfl, rfl, rfl, rfl, rfl, rfl, rfl⟩⟩

/-- Counterexample to C2 as stated: the state reached from the empty
profile by the inputs "Jane Doe", "jane@x.com", "9876543210", "nan"
holds the populated experience value NaN, which does not satisfy the
claimed constraint experience >= 0 (NaN is unordered). -/
theorem claim_C2_counterexample :
    (runSession true svcOk
        ["Jane Doe", "jane@x.com", "9876543210", "nan"]).applicant_info.experience =
      some PyFloat.nan ∧
    pyGe PyFloat.nan (PyFloat.fin 0) = false := by
  exact ⟨by decide, rfl⟩

/-- C2 (amended): in every session state reachable by the
input-processing step from the initial empty profile, each populated
field satisfies its validator's check — the same constraints as
claimed, except that for experience the code only guarantees "not less
than 0" under float ordering, which admits NaN. -/
theorem claim_C2_amended (apiKey : Bool)
    (svc : String → Except String String) (inputs : List String) :
    fieldChecksOk ((runSession apiKey svc inputs).applicant_info) :=
  validate_ok_checks (runSession_good apiKey svc inputs).1

/-- Witness for C2 (amended): the scenario-A run satisfies the
per-field checks. -/
theorem claim_C2_witness :
    fieldChecksOk ((runSession true svcOk scenarioA).applicant_info) :=
  claim_C2_amended true svcOk scenarioA

/-- C3: in a collecting state with a pending field, if the input is
not a termination keyword and its validation fails, the processing
step leaves the profile, the pending field and the collecting status
unchanged, and the emitted assistant message embeds the validator's
reason. -/
theorem claim_C3 (apiKey : Bool) (svc : String → Except String String)
    (s : SessionState) (x : String) (t : NextTarget) (e : UpdateErr)
    (hf : s.conversation_finished = false)
    (_ht : t ≠ .generate_questions)
    (hpend : s.current_field_to_fill = some t)
    (hq : pyLower x ∉ terminationKeywords)
    (ha : applyField s.applicant_info t x = .error e) :
    (processInput apiKey svc s x).applicant_info = s.applicant_info ∧
    (processInput apiKey svc s x).current_field_to_fill = some t ∧
    (processInput apiKey svc s x).conversation_finished = false ∧
    (processInput apiKey svc s x).messages =
      s.messages ++ [(.user, x), (.assistant, errMsgOf e)] ∧
    ∃ pre post, errMsgOf e = pre ++ errReason e ++ post := by
  have hpend1 : ({ s with messages := s.messages ++ [(.user, x)] }
      : SessionState).current_field_to_fill = some t := hpend
  rw [processInput_field hf hq, handleField_err hpend1 ha]
  exact ⟨rfl, hpend, hf, by simp, errMsg_embeds e⟩

/-- Witness for C3: the invalid name "Jane123" is rejected in the
initial state, leaving everything unchanged. -/
theorem claim_C3_witness :
    (processInput true svcOk initState "Jane123").applicant_info =
      initState.applicant_info ∧
    (processInput true svcOk initState "Jane123").current_field_to_fill =
      some NextTarget.name ∧
    (processInput true svcOk initState "Jane123").conversation_finished =
      false :=
  have h := claim_C3 true svcOk initState "Jane123" .name
    (.validation "Name must contain only alphabetic characters and spaces.")
    rfl (by decide) rfl (by decide) (by decide)
  ⟨h.1, h.2.1, h.2.2.1⟩

/-- C6: in a collecting state with a field pending, an input whose
lowercased form is a termination keyword finishes the session at once
with the fixed farewell message, bypassing validation and leaving the
profile (and the rest of the state except messages, status, and
pending field) unchanged. -/
theorem claim_C6 (apiKey : Bool) (svc : String → Except String String)
    (s : SessionState) (x : String) (t : NextTarget)
    (hf : s.conversation_finished = false)
    (_ht : s.current_field_to_fill = some t)
    (hq : pyLower x ∈ terminationKeywords) :
    processInput apiKey svc s x =
      { s with messages := s.messages ++ [(.user, x), (.assistant, farewellMsg)]
             , conversation_finished := true
             , current_field_to_fill := none } :=
  processInput_quit hf hq

/-- Witness for C6: "QUIT" (case-insensitive match) ends the fresh
session immediately. -/
theorem claim_C6_witness :
    processInput true svcOk initState "QUIT" =
      { initState with
          messages := initState.messages ++
            [(.user, "QUIT"), (.assistant, farewellMsg)]
        , conversation_finished := true
        , current_field_to_fill := none } :=
  claim_C6 true svcOk initState "QUIT" .name rfl rfl (by decide)

/-- C7: the phone validator accepts a string iff it has exactly 10
characters, all decimal digits (over the ASCII model of `isdigit`);
it accepts "9876543210" and rejects "98765" and "98765432ab". -/
theorem claim_C7 :
    (∀ v : String, validate_phone (some v) = .ok () ↔
      (v.length = 10 ∧ v.data.all pyIsDigit = true)) ∧
    validate_phone (some "9876543210") = .ok () ∧
    validate_phone (some "98765") =
      .error "Phone number must be 10 digits (digits only)." ∧
    validate_phone (some "98765432ab") =
      .error "Phone number must be 10 digits (digits only)." := by
  refine ⟨?_, by decide, by decide, by decide⟩
  intro v
  rw [validate_phone_ok_iff]
  constructor
  · rintro ⟨hd, hl⟩
    simp only [pyIsDigitStr, Bool.and_eq_true] at hd
    exact ⟨hl, hd.2⟩
  · rintro ⟨hl, hd⟩
    refine ⟨?_, hl⟩
    simp only [pyIsDigitStr, Bool.and_eq_true]
    refine ⟨?_, hd⟩
    cases hdata : v.data with
    | nil => simp [String.length, hdata] at hl
    | cons c cs => simp [hdata]

/-- Witness for C7: an application of the characterization to a
concrete 10-digit string. -/
theorem claim_C7_witness : validate_phone (some "0123456789") = .ok () :=
  (claim_C7.1 "0123456789").mpr ⟨rfl, rfl⟩

/-- C10: `float()` parsing accepts the non-finite literals "nan" and
"inf"; the experience validator's only check (v < 0) does not reject
NaN, so the update succeeds and the profile stores a non-finite
experience value even though NaN does not satisfy experience >= 0. -/
theorem claim_C10 :
    pyFloatOfString "nan" = some PyFloat.nan ∧
    pyFloatOfString "inf" = some PyFloat.inf ∧
    pyLt PyFloat.nan (PyFloat.fin 0) = false ∧
    validate_experience (some PyFloat.nan) = .ok () ∧
    (processInput true svcOk
        (runSession true svcOk ["Jane Doe", "jane@x.com", "9876543210"])
        "nan").applicant_info.experience = some PyFloat.nan ∧
    (processInput true svcOk
        (runSession true svcOk ["Jane Doe", "jane@x.com", "9876543210"])
        "inf").applicant_info.experience = some PyFloat.inf ∧
    pyGe PyFloat.nan (PyFloat.fin 0) = false := by
  exact ⟨rfl, rfl, rfl, rfl, by decide, by decide, rfl⟩

/-- C4: in every execution trace from the initial state, the
generation adapter is invoked at most once; a step changes the call
log exactly when it successfully sets the seventh field `tech_stack`
(session collecting, `tech_stack` pending, input not a termination
keyword, validated update succeeds); such a step calls the adapter
with the collected tech_stack value (the raw input), finishes the
session, and leaves all seven fields populated for the final
export. -/
theorem claim_C4 (apiKey : Bool) (svc : String → Except String String)
    (inputs : List String) :
    (runSession apiKey svc inputs).gen_calls.length ≤ 1 ∧
    ∀ pre x suf, inputs = pre ++ x :: suf →
      (((processInput apiKey svc (runSession apiKey svc pre) x).gen_calls ≠
          (runSession apiKey svc pre).gen_calls) ↔
        setsTechAt (runSession apiKey svc pre) x) ∧
      (setsTechAt (runSession apiKey svc pre) x →
        (processInput apiKey svc (runSession apiKey svc pre) x).gen_calls =
          [x] ∧
        (processInput apiKey svc
            (runSession apiKey svc pre) x).applicant_info.tech_stack =
          some x ∧
        (processInput apiKey svc
            (runSession apiKey svc pre) x).conversation_finished = true ∧
        allSeven (processInput apiKey svc
            (runSession apiKey svc pre) x).applicant_info = true) := by
  constructor
  · rcases (runSession_good apiKey svc inputs).2.2 with h | ⟨ts, h, _⟩ <;>
      simp [h]
  · intro pre x _ _
    have hs := runSession_good apiKey svc pre
    refine ⟨⟨?_, ?_⟩, step_calls_gen apiKey svc _ x hs⟩
    · intro hne
      by_contra hnot
      exact hne (step_calls_unchanged apiKey svc _ x hs hnot)
    · intro hst
      rw [(step_calls_gen apiKey svc _ x hs hst).1]
      obtain ⟨hcalls, _⟩ := hs.2.1 hst.1
      rw [hcalls]
      simp

/-- Witness for C4: in scenario A the adapter is called once, at the
seventh input, with argument "Python, PostgreSQL", and the session
finishes. -/
theorem claim_C4_witness :
    (runSession true svcOk scenarioA).gen_calls.length ≤ 1 ∧
    (processInput true svcOk (runSession true svcOk scenarioA6)
        "Python, PostgreSQL").gen_calls = ["Python, PostgreSQL"] ∧
    (processInput true svcOk (runSession true svcOk scenarioA6)
        "Python, PostgreSQL").conversation_finished = true :=
  have h := claim_C4 true svcOk scenarioA
  have hst : setsTechAt (runSession true svcOk scenarioA6)
      "Python, PostgreSQL" :=
    ⟨by decide, by decide, by decide, profileA, by decide⟩
  have h2 := (h.2 scenarioA6 "Python, PostgreSQL" [] rfl).2 hst
  ⟨h.1, h2.1, h2.2.2.1⟩

set_option maxHeartbeats 1000000 in
/-- C5: the generation adapter is a total function (it cannot raise);
whenever the underlying service call fails, it returns exactly the
fixed fallback string, and a session whose service always fails still
finishes with the fallback as the technical-questions message. -/
theorem claim_C5 :
    (∀ (svc : String → Except String String) (ts e : String),
      svc ts = .error e →
      generate_technical_questions true svc ts = fallbackMsg) ∧
    (∀ svc : String → Except String String,
      (∀ t, ∃ e, svc t = .error e) →
      (runSession true svc scenarioA).conversation_finished = true ∧
      ∃ pre, (runSession true svc scenarioA).messages =
        pre ++ [(Role.assistant, fallbackMsg), (Role.assistant, farewellMsg)]) := by
  have hgen : ∀ (svc : String → Except String String) (ts e : String),
      svc ts = .error e →
      generate_technical_questions true svc ts = fallbackMsg := by
    intro svc ts e he
    simp [generate_technical_questions, he]
  refine ⟨hgen, ?_⟩
  intro svc hfail
  obtain ⟨e, he⟩ := hfail "Python, PostgreSQL"
  have hstep : runSession true svc scenarioA =
      processInput true svc (runSession true svc scenarioA6)
        "Python, PostgreSQL" := by
    simp [runSession, scenarioA, List.foldl_append]
  have g1 : get_next_prompt profileA1 = (emailPrompt "Jane Doe", .email) := by
    decide
  have g2 : get_next_prompt profileA2 = (phonePrompt, .phone) := by decide
  have g3 : get_next_prompt profileA3 = (experiencePrompt, .experience) := by
    decide
  have g4 : get_next_prompt profileA4 = (positionPrompt, .position) := by
    decide
  have g5 : get_next_prompt profileA5 = (locationPrompt, .location) := by
    decide
  have g6 : get_next_prompt profileA6 = (techStackPrompt, .tech_stack) := by
    decide
  have e1 : runSession true svc ["Jane Doe"] =
      processInput true svc initState "Jane Doe" := by
    simp [runSession]
  have ha1 : applyField initState.applicant_info .name "Jane Doe" =
      .ok profileA1 := by decide
  have k1 : (runSession true svc ["Jane Doe"]).conversation_finished = false ∧
      (runSession true svc ["Jane Doe"]).current_field_to_fill =
        some NextTarget.email ∧
      (runSession true svc ["Jane Doe"]).applicant_info = profileA1 := by
    rw [e1]
    exact step_facts true svc rfl rfl (by decide) ha1 g1 (by decide)
  have e2 : runSession true svc ["Jane Doe", "jane@x.com"] =
      processInput true svc (runSession true svc ["Jane Doe"])
        "jane@x.com" := by
    simp [runSession]
  have ha2 : applyField (runSession true svc ["Jane Doe"]).applicant_info
      .email "jane@x.com" = .ok profileA2 := by
    rw [k1.2.2]; decide
  have k2 : (runSession true svc
        ["Jane Doe", "jane@x.com"]).conversation_finished = false ∧
      (runSession true svc
        ["Jane Doe", "jane@x.com"]).current_field_to_fill =
        some NextTarget.phone ∧
      (runSession true svc ["Jane Doe", "jane@x.com"]).applicant_info =
        profileA2 := by
    rw [e2]
    exact step_facts true svc k1.1 k1.2.1 (by decide) ha2 g2 (by decide)
  have e3 : runSession true svc ["Jane Doe", "jane@x.com", "9876543210"] =
      processInput true svc (runSession true svc ["Jane Doe", "jane@x.com"])
        "9876543210" := by
    simp [runSession]
  have ha3 : applyField (runSession true svc
      ["Jane Doe", "jane@x.com"]).applicant_info .phone "9876543210" =
      .ok profileA3 := by
    rw [k2.2.2]; decide
  have k3 : (runSession true svc
        ["Jane Doe", "jane@x.com", "9876543210"]).conversation_finished =
        false ∧
      (runSession true svc
        ["Jane Doe", "jane@x.com", "9876543210"]).current_field_to_fill =
        some NextTarget.experience ∧
      (runSession true svc
        ["Jane Doe", "jane@x.com", "9876543210"]).applicant_info =
        profileA3 := by
    rw [e3]
    exact step_facts true svc k2.1 k2.2.1 (by decide) ha3 g3 (by decide)
  have e4 : runSession true svc
      ["Jane Doe", "jane@x.com", "9876543210", "2"] =
      processInput true svc
        (runSession true svc ["Jane Doe", "jane@x.com", "9876543210"])
        "2" := by
    simp [runSession]
  have ha4 : applyField (runSession true svc
      ["Jane Doe", "jane@x.com", "9876543210"]).applicant_info
      .experience "2" = .ok profileA4 := by
    rw [k3.2.2]; decide
  have k4 : (runSession true svc
        ["Jane Doe", "jane@x.com", "9876543210", "2"]).conversation_finished =
        false ∧
      (runSession true svc
        ["Jane Doe", "jane@x.com", "9876543210", "2"]).current_field_to_fill =
        some NextTarget.position ∧
      (runSession true svc
        ["Jane Doe", "jane@x.com", "9876543210", "2"]).applicant_info =
        profileA4 := by
    rw [e4]
    exact step_facts true svc k3.1 k3.2.1 (by decide) ha4 g4 (by decide)
  have e5 : runSession true svc
      ["Jane Doe", "jane@x.com", "9876543210", "2", "Backend Engineer"] =
      processInput true svc
        (runSession true svc ["Jane Doe", "jane@x.com", "9876543210", "2"])
        "Backend Engineer" := by
    simp [runSession]
  have ha5 : applyField (runSession true svc
      ["Jane Doe", "jane@x.com", "9876543210", "2"]).applicant_info
      .position "Backend Engineer" = .ok profileA5 := by
    rw [k4.2.2]; decide
  have k5 : (runSession true svc
        ["Jane Doe", "jane@x.com", "9876543210", "2",
          "Backend Engineer"]).conversation_finished = false ∧
      (runSession true svc
        ["Jane Doe", "jane@x.com", "9876543210", "2",
          "Backend Engineer"]).current_field_to_fill =
        some NextTarget.location ∧
      (runSession true svc
        ["Jane Doe", "jane@x.com", "9876543210", "2",
          "Backend Engineer"]).applicant_info = profileA5 := by
    rw [e5]
    exact step_facts true svc k4.1 k4.2.1 (by decide) ha5 g5 (by decide)
  have e6 : runSession true svc scenarioA6 =
      processInput true svc
        (runSession true svc
          ["Jane Doe", "jane@x.com", "9876543210", "2", "Backend Engineer"])
        "Berlin" := by
    simp [runSession, scenarioA6]
  have ha6 : applyField (runSession true svc
      ["Jane Doe", "jane@x.com", "9876543210", "2",
        "Backend Engineer"]).applicant_info .location "Berlin" =
      .ok profileA6 := by
    rw [k5.2.2]; decide
  have k6 : (runSession true svc scenarioA6).conversation_finished = false ∧
      (runSession true svc scenarioA6).current_field_to_fill =
        some NextTarget.tech_stack ∧
      (runSession true svc scenarioA6).applicant_info = profileA6 := by
    rw [e6]
    exact step_facts true svc k5.1 k5.2.1 (by decide) ha6 g6 (by decide)
  rw [hstep]
  have hq : pyLower "Python, PostgreSQL" ∉ terminationKeywords := by decide
  generalize hS : runSession true svc scenarioA6 = S
  rw [hS] at k6
  have ha : applyField S.applicant_info .tech_stack "Python, PostgreSQL" =
      .ok profileA := by
    rw [k6.2.2]; decide
  have hg : get_next_prompt profileA = (ackTemplate, .generate_questions) :=
    rfl
  have hpend1 : ({ S with
      messages := S.messages ++ [(.user, "Python, PostgreSQL")] }
      : SessionState).current_field_to_fill = some NextTarget.tech_stack :=
    k6.2.1
  rw [processInput_field k6.1 hq, handleField_ok_gen hpend1 ha hg]
  refine ⟨rfl, ⟨S.messages ++
    [(.user, "Python, PostgreSQL")
    , (.assistant, ackTemplate.replace "{tech_stack}"
        (profileA.tech_stack.getD ""))], ?_⟩⟩
  have hq2 : generate_technical_questions true svc
      (profileA.tech_stack.getD "") = fallbackMsg :=
    hgen svc (profileA.tech_stack.getD "") e he
  rw [hq2]
  simp

/-- Witness for C5: a concrete always-failing service yields the
fallback text and the scenario-A session still finishes. -/
theorem claim_C5_witness :
    generate_technical_questions true svcFail "Python" = fallbackMsg ∧
    (runSession true svcFail scenarioA).conversation_finished = true :=
  ⟨claim_C5.1 svcFail "Python" "service unavailable" rfl,
   (claim_C5.2 svcFail fun _ => ⟨"service unavailable", rfl⟩).1⟩

/-- C8: with the experience field pending (and a valid profile, as in
every reachable such state), the raw input is first parsed as a float:
a non-parsable input yields a parse-kind error, a negative parsed
value yields a validation-kind error (the two kinds are distinct
constructors), both leave the profile and pending field unchanged,
while a parsed value that is not below zero is accepted; "five" fails
to parse, "-1" parses negative, and "0" and "3.5" parse to accepted
values. -/
theorem claim_C8 (apiKey : Bool) (svc : String → Except String String)
    (s : SessionState)
    (hf : s.conversation_finished = false)
    (hpend : s.current_field_to_fill = some NextTarget.experience)
    (hval : validateApplicant s.applicant_info = .ok ()) :
    (∀ x, pyLower x ∉ terminationKeywords → pyFloatOfString x = none →
      applyField s.applicant_info .experience x =
        .error (.parse
          ("could not convert string to float: \x27" ++ x ++ "\x27")) ∧
      (processInput apiKey svc s x).applicant_info = s.applicant_info ∧
      (processInput apiKey svc s x).current_field_to_fill =
        some NextTarget.experience) ∧
    (∀ x v, pyLower x ∉ terminationKeywords → pyFloatOfString x = some v →
      pyLt v (.fin 0) = true →
      applyField s.applicant_info .experience x =
        .error (.validation "Experience cannot be negative.") ∧
      (processInput apiKey svc s x).applicant_info = s.applicant_info ∧
      (processInput apiKey svc s x).current_field_to_fill =
        some NextTarget.experience) ∧
    (∀ x v, pyFloatOfString x = some v → pyLt v (.fin 0) = false →
      applyField s.applicant_info .experience x =
        .ok { s.applicant_info with experience := some v }) ∧
    (pyFloatOfString "five" = none ∧
     pyFloatOfString "-1" = some (.fin (-1)) ∧
     pyFloatOfString "0" = some (.fin 0) ∧
     pyFloatOfString "3.5" = some (.fin (mkRat 7 2)) ∧
     ∀ m m' : String, UpdateErr.parse m ≠ UpdateErr.validation m') := by
  obtain ⟨c1, c2, c3, c4, c5, c6, c7⟩ := (validateApplicant_ok_iff _).mp hval
  refine ⟨?_, ?_, ?_, rfl, rfl, rfl, rfl,
    fun m m' hc => UpdateErr.noConfusion hc⟩
  · intro x hq hpx
    have ha : applyField s.applicant_info .experience x =
        .error (.parse
          ("could not convert string to float: \x27" ++ x ++ "\x27")) := by
      simp [applyField, hpx]
    have hpend1 : ({ s with messages := s.messages ++ [(.user, x)] }
        : SessionState).current_field_to_fill =
        some NextTarget.experience := hpend
    refine ⟨ha, ?_, ?_⟩
    · rw [processInput_field hf hq, handleField_err hpend1 ha]
    · rw [processInput_field hf hq, handleField_err hpend1 ha]
      exact hpend
  · intro x v hq hpx hlt
    have hcand : validateApplicant
        { s.applicant_info with experience := some v } =
        .error "Experience cannot be negative." :=
      validateApplicant_exp_err c1 c2 c3 (validate_experience_err hlt)
    have ha : applyField s.applicant_info .experience x =
        .error (.validation "Experience cannot be negative.") := by
      simp [applyField, hpx, revalidate_of_err hcand]
    have hpend1 : ({ s with messages := s.messages ++ [(.user, x)] }
        : SessionState).current_field_to_fill =
        some NextTarget.experience := hpend
    refine ⟨ha, ?_, ?_⟩
    · rw [processInput_field hf hq, handleField_err hpend1 ha]
    · rw [processInput_field hf hq, handleField_err hpend1 ha]
      exact hpend
  · intro x v hpx hlt
    have hcand : validateApplicant
        { s.applicant_info with experience := some v } = .ok () := by
      rw [validateApplicant_ok_iff]
      exact ⟨c1, c2, c3, (validate_experience_ok_iff v).mpr hlt, c5, c6, c7⟩
    simp [applyField, hpx, revalidate_of_ok hcand]

/-- Witness for C8: at the reachable state with experience pending,
"five" raises a parse error, "-1" a validation error, and "3.5" is
accepted. -/
theorem claim_C8_witness :
    applyField (runSession true svcOk
        ["Jane Doe", "jane@x.com", "9876543210"]).applicant_info
      .experience "five" =
      .error (.parse "could not convert string to float: \x27five\x27") ∧
    applyField (runSession true svcOk
        ["Jane Doe", "jane@x.com", "9876543210"]).applicant_info
      .experience "-1" =
      .error (.validation "Experience cannot be negative.") ∧
    applyField (runSession true svcOk
        ["Jane Doe", "jane@x.com", "9876543210"]).applicant_info
      .experience "3.5" =
      .ok { (runSession true svcOk
          ["Jane Doe", "jane@x.com", "9876543210"]).applicant_info with
        experience := some (.fin (mkRat 7 2)) } :=
  have h := claim_C8 true svcOk
    (runSession true svcOk ["Jane Doe", "jane@x.com", "9876543210"])
    (by decide) (by decide) (by decide)
  ⟨(h.1 "five" (by decide) (by decide)).1,
   (h.2.1 "-1" (.fin (-1)) (by decide) (by decide) (by decide)).1,
   h.2.2.1 "3.5" (.fin (mkRat 7 2)) (by decide) (by decide)⟩

/-- Counterexample to C9 as stated: with the first six fields
populated and tech_stack pending, the whitespace-padded keyword
" quit" is not matched by the termination check, is submitted to
validation — and, being a valid tech_stack value, completes the
profile, so the processing step does terminate the session. -/
theorem claim_C9_counterexample :
    " quit" ≠ pyStrip " quit" ∧
    pyStrip " quit" = "quit" ∧
    pyLower (pyStrip " quit") ∈ terminationKeywords ∧
    pyLower " quit" ∉ terminationKeywords ∧
    (runSession true svcOk scenarioA6).conversation_finished = false ∧
    (runSession true svcOk scenarioA6).current_field_to_fill =
      some NextTarget.tech_stack ∧
    (processInput true svcOk (runSession true svcOk scenarioA6)
        " quit").conversation_finished = true :=
  ⟨by decide, by decide, by decide, by decide, by decide, by decide, by decide⟩

/-- C9 (amended): termination-keyword matching lowercases the input
but does not trim it, so an input with leading or trailing whitespace
around a keyword never matches; while a field is pending, such an
input does not take the termination branch — the raw input (whitespace
included) is submitted to validation for the pending field (the
session can still finish in that step, but only by the validated
update completing the profile). -/
theorem claim_C9_amended :
    (∀ x : String, x ≠ pyStrip x →
      pyLower (pyStrip x) ∈ terminationKeywords →
      pyLower x ∉ terminationKeywords) ∧
    (∀ (apiKey : Bool) (svc : String → Except String String)
        (s : SessionState) (x : String) (t : NextTarget),
      s.conversation_finished = false →
      s.current_field_to_fill = some t →
      pyLower x ∉ terminationKeywords →
      processInput apiKey svc s x =
        handleField apiKey svc
          { s with messages := s.messages ++ [(.user, x)] } x) :=
  ⟨padded_keyword_not_matched,
   fun _ _ _ _ _ hf _ hq => processInput_field hf hq⟩

/-- Witness for C9 (amended): " quit " is not matched and is handled
by the field-update branch in the fresh session. -/
theorem claim_C9_witness :
    pyLower " quit " ∉ terminationKeywords ∧
    processInput true svcOk initState " quit " =
      handleField true svcOk
        { initState with
            messages := initState.messages ++ [(.user, " quit ")] }
        " quit " :=
  ⟨claim_C9_amended.1 " quit " (by decide) (by decide),
   claim_C9_amended.2 true svcOk initState " quit " .name rfl rfl
     (claim_C9_amended.1 " quit " (by decide) (by decide))⟩

end TalentScout
